import Mathlib

/-!
Shallow embedding of the AgenticMCP permission/query core.

Source modules embedded here:
- `src/agenticmcp/config.py` (data model: ColumnDef, TableDef, RoleDef,
  PermissionsConfig, settings fields used by the checker),
- `src/agenticmcp/database.py` (identifier sanitizer and query builders),
- `src/agenticmcp/permissions.py` (PermissionChecker),
- `src/agenticmcp/tools/query.py` (raw-query tool, up to execution),
- `src/agenticmcp/tools/tables.py` (select pipeline query-text surgery and
  update/delete row-filter merge).

Python strings are modelled as Lean `String` (character list underneath).
Python `dict` values are modelled as ordered association lists, matching
Python 3 insertion-ordered dictionaries; assigning to an existing key keeps
its position, assigning to a fresh key appends.  Python `None` becomes
`Option.none`.  Code that raises becomes `Except String`.

Scope note: `str.isalnum` in Python is Unicode-aware.  The model
`pyIsAlnumChar` below covers the ASCII fragment, and every theorem that
depends on it restricts its strings to ASCII characters.
-/

deriving instance DecidableEq for Except

/-- A Python runtime value as it appears in query parameter lists and
`where`/`data` mappings: an integer, a string, or `None`. -/
inductive Value where
  | int (i : Int)
  | str (s : String)
  | null
deriving DecidableEq, Repr

/-- Python string-method models.  Lean's own `String.trim`,
`String.toUpper`, `String.splitOn` and `String.replace` walk byte
positions through well-founded recursion, which the kernel cannot
evaluate; these list-based equivalents are structurally recursive so that
concrete runs reduce by `decide`.  They model the ASCII behaviour of the
corresponding Python methods. -/
def pyTrim (s : String) : String :=
  ⟨((s.data.dropWhile Char.isWhitespace).reverse.dropWhile
    Char.isWhitespace).reverse⟩

/-- Python `str.upper`, ASCII fragment. -/
def pyToUpper (s : String) : String :=
  ⟨s.data.map Char.toUpper⟩

/-- Python `str.startswith`. -/
def pyStartsWith (s pre : String) : Bool :=
  pre.data.isPrefixOf s.data

/-- Worker for `pySplitOn`: scan the remaining characters; `skip` is the
number of characters of a just-matched separator still to consume; `acc`
holds the current field in reverse. -/
def splitOnAuxL (sep : List Char) : List Char → Nat → List Char →
    List (List Char)
  | [], _, acc => [acc.reverse]
  | _ :: rest, Nat.succ k, acc => splitOnAuxL sep rest k acc
  | c :: rest, 0, acc =>
    if sep.isPrefixOf (c :: rest) ∧ 0 < sep.length then
      acc.reverse :: splitOnAuxL sep rest (sep.length - 1) []
    else
      splitOnAuxL sep rest 0 (c :: acc)

/-- Python `str.split(sep)` for a nonempty separator, splitting on each
non-overlapping occurrence left to right and keeping empty fields. -/
def pySplitOn (s sep : String) : List String :=
  if sep.data = [] then [s]
  else (splitOnAuxL sep.data s.data 0 []).map (fun l => ⟨l⟩)

/-- Ordered association-list lookup, modelling Python `d.get(k)` /
`k in d` followed by `d[k]` on an insertion-ordered `dict`. -/
def lookupA {α : Type} : List (String × α) → String → Option α
  | [], _ => none
  | (k', v) :: rest, k => if k' = k then some v else lookupA rest k

/-- Python `d[k] = v` on an insertion-ordered `dict`: replace the value at
an existing key in place, or append a fresh key at the end. -/
def dictSet {α : Type} (d : List (String × α)) (k : String) (v : α) :
    List (String × α) :=
  if d.any (fun p => p.1 = k) then
    d.map (fun p => if p.1 = k then (k, v) else p)
  else
    d ++ [(k, v)]

/-- `config.py` `ColumnDef`: name, declared type tag, sensitivity flag,
optional list of role names allowed to view the column. -/
structure ColumnDef where
  name : String
  type : String
  sensitive : Bool := false
  visible_to : Option (List String) := none
deriving DecidableEq, Repr

/-- `config.py` `TableDef`: primary key (default `"id"`), ordered column
specifications, optional per-role row-filter template map. -/
structure TableDef where
  primary_key : String := "id"
  columns : List ColumnDef := []
  row_filter : Option (List (String × String)) := none
deriving DecidableEq, Repr

/-- `config.py` `RoleDef` with its pydantic defaults. -/
structure RoleDef where
  description : String := ""
  tables : List String := []
  operations : List String := []
  columns : List (String × List String) := []
  row_filters : List (String × String) := []
deriving DecidableEq, Repr

/-- `config.py` `PermissionsConfig` (role map and table map). -/
structure PermissionsConfig where
  version : String := "1.0"
  default_role : String := "reader"
  roles : List (String × RoleDef) := []
  tables : List (String × TableDef) := []
deriving DecidableEq, Repr

/-- The state a `permissions.py` `PermissionChecker` holds after
`_load_config`: the settings fields it copies plus the resolved role. -/
structure PermissionChecker where
  role_name : String
  user_id : Option String
  tenant_id : Option String
  role : RoleDef
  permissions : PermissionsConfig
  max_rows : Int
deriving DecidableEq, Repr

/-- `PermissionChecker._load_config`: resolve the active role as
`roles.get(role_name, roles.get(default_role, RoleDef()))`. -/
def mkChecker (role_name : String) (user_id tenant_id : Option String)
    (max_rows : Int) (perms : PermissionsConfig) : PermissionChecker :=
  { role_name := role_name
    user_id := user_id
    tenant_id := tenant_id
    role := (lookupA perms.roles role_name).getD
      ((lookupA perms.roles perms.default_role).getD {})
    permissions := perms
    max_rows := max_rows }

/-- `PermissionChecker.is_admin`: role name is `"admin"` or the role's
table list contains the wildcard. -/
def is_admin (c : PermissionChecker) : Bool :=
  c.role_name = "admin" || c.role.tables.contains "*"

/-- `PermissionChecker.can_access_table`. -/
def can_access_table (c : PermissionChecker) (table_name : String) : Bool :=
  if is_admin c then true
  else if c.role.tables.contains table_name then true
  else if c.role.tables.contains "*" then true
  else false

/-- `PermissionChecker.can_read`. -/
def can_read (c : PermissionChecker) (table_name : String) : Bool :=
  if is_admin c then true
  else if !can_access_table c table_name then false
  else c.role.operations.contains "*" || c.role.operations.contains "read"

/-- `PermissionChecker.can_write`. -/
def can_write (c : PermissionChecker) (table_name : String) : Bool :=
  if is_admin c then true
  else if !can_access_table c table_name then false
  else c.role.operations.contains "*" || c.role.operations.contains "write"

/-- `PermissionChecker.can_execute_raw_query`. -/
def can_execute_raw_query (c : PermissionChecker) : Bool :=
  is_admin c

/-- `PermissionChecker.validate_operation`: dispatch over the operation
kind; any kind outside the five known ones falls through to `False`. -/
def validate_operation (c : PermissionChecker) (operation table_name : String) :
    Bool :=
  if operation = "read" then can_read c table_name
  else if operation = "insert" ∨ operation = "update" ∨ operation = "delete" then
    can_write c table_name
  else if operation = "query" then can_execute_raw_query c
  else false

/-- `PermissionChecker.check_permission`: raise `PermissionError` with the
formatted message when `validate_operation` is false, else no-op. -/
def check_permission (c : PermissionChecker) (operation table_name : String) :
    Except String Unit :=
  if validate_operation c operation table_name then .ok ()
  else .error ("Role '" ++ c.role_name ++ "' is not allowed to perform '"
    ++ operation ++ "' on table '" ++ table_name ++ "'")

/-- `PermissionChecker.apply_row_limit`. -/
def apply_row_limit (c : PermissionChecker) (limit : Option Int) : Int :=
  match limit with
  | none => c.max_rows
  | some l =>
    let effective_limit := min l c.max_rows
    if effective_limit ≤ 0 then c.max_rows else effective_limit

/-- The loop body of `PermissionChecker.get_allowed_columns` over a table
definition's columns: keep a column when `visible_to` is absent, contains
the wildcard, or contains the role name. -/
def allowedColsLoop (role_name : String) : List ColumnDef → List String
  | [] => []
  | col :: rest =>
    match col.visible_to with
    | none => col.name :: allowedColsLoop role_name rest
    | some vs =>
      if vs.contains "*" then col.name :: allowedColsLoop role_name rest
      else if vs.contains role_name then col.name :: allowedColsLoop role_name rest
      else allowedColsLoop role_name rest

/-- `PermissionChecker.get_allowed_columns`: admin gets `None`
(unrestricted); else the role-level column map entry; else the columns
derived from the table definition, with an empty derived list collapsing
to `None` (`return allowed if allowed else None`); else `None`. -/
def get_allowed_columns (c : PermissionChecker) (table_name : String) :
    Option (List String) :=
  if is_admin c then none
  else
    match lookupA c.role.columns table_name with
    | some cols => some cols
    | none =>
      match lookupA c.permissions.tables table_name with
      | some table_def =>
        let allowed := allowedColsLoop c.role_name table_def.columns
        if allowed.isEmpty then none else some allowed
      | none => none

/-- Worker for `replaceAllList`: scan the characters; `skip` is the
number of characters of a just-matched pattern occurrence still to
consume without emitting. -/
def replaceAux (pat repl : List Char) : List Char → Nat → List Char
  | [], _ => []
  | _ :: rest, Nat.succ k => replaceAux pat repl rest k
  | c :: rest, 0 =>
    if pat.isPrefixOf (c :: rest) ∧ 0 < pat.length then
      repl ++ replaceAux pat repl rest (pat.length - 1)
    else
      c :: replaceAux pat repl rest 0

/-- Python `s.replace(pat, repl)` on character lists: replace each
non-overlapping occurrence of `pat`, scanning left to right.  The empty
pattern (never used by the embedded code) leaves the string unchanged. -/
def replaceAllList (pat repl : List Char) (s : List Char) : List Char :=
  if pat = [] then s else replaceAux pat repl s 0

/-- Python `s.replace(pat, repl)` lifted to `String`. -/
def pyReplace (s pat repl : String) : String :=
  ⟨replaceAllList pat.data repl.data s.data⟩

/-- `PermissionChecker._substitute_filter_vars`: substitute `{user_id}`
and `{tenant_id}` with the session's bound string values; an unset
session value leaves its placeholder untouched. -/
def substitute_filter_vars (c : PermissionChecker) (filter_template : String) :
    String :=
  let r1 := match c.user_id with
    | some u => pyReplace filter_template "{user_id}" u
    | none => filter_template
  match c.tenant_id with
  | some t => pyReplace r1 "{tenant_id}" t
  | none => r1

/-- `PermissionChecker.get_row_filter`: admin gets `None`; else the
role-level `row_filters` entry, else the table definition's `row_filter`
entry keyed by the role name, each run through the substituter. -/
def get_row_filter (c : PermissionChecker) (table_name : String) :
    Option String :=
  if is_admin c then none
  else
    match lookupA c.role.row_filters table_name with
    | some filter_template => some (substitute_filter_vars c filter_template)
    | none =>
      match lookupA c.permissions.tables table_name with
      | some table_def =>
        match table_def.row_filter with
        | some m =>
          match lookupA m c.role_name with
          | some filter_template => some (substitute_filter_vars c filter_template)
          | none => none
        | none => none
      | none => none

/-- The template `get_row_filter` selects before substitution: the
role-level `row_filters` entry for the table if present, else the table
definition's `row_filter` entry keyed by the role name — the two
applicable-template paths of the code, factored so properties of the
substitution cover both. -/
def applicable_row_filter_template (c : PermissionChecker)
    (table_name : String) : Option String :=
  match lookupA c.role.row_filters table_name with
  | some filter_template => some filter_template
  | none =>
    match lookupA c.permissions.tables table_name with
    | some table_def =>
      match table_def.row_filter with
      | some m => lookupA m c.role_name
      | none => none
    | none => none

/-- Python `str.isalnum` restricted to a single ASCII character:
a decimal digit or a Latin letter.  (Python's `isalnum` also accepts
non-ASCII Unicode alphanumerics; theorems relying on this model therefore
restrict their strings to ASCII.) -/
def pyIsAlnumChar (c : Char) : Bool :=
  c.isAlpha || c.isDigit

/-- Python `str.isalnum` on a character list: nonempty and every
character alphanumeric. -/
def pyIsAlnum (s : List Char) : Bool :=
  !s.isEmpty && s.all pyIsAlnumChar

/-- `database.py` `DatabaseManager.sanitize_identifier`: remove every
underscore and hyphen (`replace("_", "").replace("-", "")`), require the
remainder to satisfy `isalnum`, and return the identifier wrapped in
double quotes; otherwise raise `ValueError`. -/
def sanitize_identifier (identifier : String) : Except String String :=
  if !pyIsAlnum ((identifier.data.filter (fun c => c ≠ '_')).filter
      (fun c => c ≠ '-')) then
    .error ("Invalid identifier: " ++ identifier)
  else
    .ok ("\"" ++ identifier ++ "\"")

/-- Sanitize a list of column identifiers left to right, propagating the
first failure, as the generator inside `", ".join(...)` does. -/
def sanitizeList : List String → Except String (List String)
  | [] => .ok []
  | c :: rest =>
    match sanitize_identifier c with
    | .error e => .error e
    | .ok s =>
      match sanitizeList rest with
      | .error e => .error e
      | .ok ss => .ok (s :: ss)

/-- The WHERE-building loop shared by the query builders: walk the
`where` mapping in order, sanitizing each column and emitting
`"col" = $i` with `i` counting up from `start`; collect the values as the
trailing parameters. -/
def buildConds : List (String × Value) → Nat →
    Except String (List String × List Value)
  | [], _ => .ok ([], [])
  | (k, v) :: rest, i =>
    match sanitize_identifier k with
    | .error e => .error e
    | .ok safe_col =>
      match buildConds rest (i + 1) with
      | .error e => .error e
      | .ok (conds, params) =>
        .ok ((safe_col ++ " = $" ++ toString i) :: conds, v :: params)

/-- The SELECT/FROM/WHERE/ORDER BY portion of
`DatabaseManager.build_select_query` (`database.py`), before the
OFFSET/LIMIT step. -/
def build_select_query_base (table : String) (columns : Option (List String))
    (whereM : Option (List (String × Value))) (order_by : Option String) :
    Except String (String × List Value) :=
  match sanitize_identifier table with
  | .error e => .error e
  | .ok safe_table =>
    match (match columns with
           | some cols =>
             if cols.isEmpty then Except.ok "*"
             else
               match sanitizeList cols with
               | .error e => .error e
               | .ok safe => .ok (String.intercalate ", " safe)
           | none => Except.ok "*") with
    | .error e => .error e
    | .ok safe_columns =>
      let q0 := "SELECT " ++ safe_columns ++ " FROM " ++ safe_table
      match (match whereM with
             | some w =>
               if w.isEmpty then Except.ok (q0, ([] : List Value))
               else
                 match buildConds w 1 with
                 | .error e => .error e
                 | .ok (conds, params) =>
                   .ok (q0 ++ " WHERE " ++ String.intercalate " AND " conds,
                     params)
             | none => Except.ok (q0, ([] : List Value))) with
      | .error e => .error e
      | .ok (q1, params1) =>
        match (match order_by with
               | some o =>
                 if o = "" then Except.ok q1
                 else
                   match sanitize_identifier o with
                   | .error e => .error e
                   | .ok safe_order => .ok (q1 ++ " ORDER BY " ++ safe_order)
               | none => Except.ok q1) with
        | .error e => .error e
        | .ok q2 => .ok (q2, params1)

/-- `database.py` `DatabaseManager.build_select_query`.  Mirrors the
Python truthiness tests: an absent or empty column list means `*`, an
absent or empty `where` dict adds no WHERE clause, an absent or empty
`order_by` adds no ORDER BY, and a `limit` of `None` or `0` (falsy
`if limit:`) adds no OFFSET/LIMIT clause. -/
def build_select_query (table : String) (columns : Option (List String))
    (whereM : Option (List (String × Value))) (order_by : Option String)
    (limit : Option Int) (offset : Int) :
    Except String (String × List Value) :=
  match build_select_query_base table columns whereM order_by with
  | .error e => .error e
  | .ok (q2, params1) =>
    match limit with
    | some l =>
      if l = 0 then .ok (q2, params1)
      else
        let params2 := params1 ++ [Value.int offset, Value.int l]
        .ok (q2 ++ " OFFSET $" ++ toString (params2.length - 1)
          ++ " LIMIT $" ++ toString params2.length, params2)
    | none => .ok (q2, params1)

/-- Outcome of `tools/query.py` `QueryTool.execute` up to the point where
the SQL would be handed to the database: denied by the admin check,
rejected by the SELECT-only gate, or passed on for execution. -/
inductive RawQueryResult where
  | permissionDenied (msg : String)
  | rawQueryRejected (msg : String)
  | executed
deriving DecidableEq, Repr

/-- `QueryTool.execute`: `check_permission("query", "")` first, then the
SELECT-only gate on `sql.strip().upper()`. -/
def query_tool_execute (c : PermissionChecker) (sql : String) :
    RawQueryResult :=
  match check_permission c "query" "" with
  | .error m => .permissionDenied m
  | .ok _ =>
    if !(pyStartsWith (pyToUpper (pyTrim sql)) "SELECT") then
      .rawQueryRejected "Only SELECT queries are allowed for security reasons"
    else
      .executed

/-- Python `s.strip(ch)` for a single strip character: drop every copy of
`ch` from both ends. -/
def pyStripChar (ch : Char) (s : String) : String :=
  ⟨((s.data.dropWhile (fun c => c = ch)).reverse.dropWhile
    (fun c => c = ch)).reverse⟩

/-- The single-quote character, written by code point to keep the source
readable. -/
def squote : Char := Char.ofNat 39

/-- The row-filter merge step shared verbatim by `TablesTool.update` and
`TablesTool.delete` (`tools/tables.py`): when a nonempty row filter splits
on `" = "` into exactly two parts, strip whitespace then double quotes
from the column part and whitespace then single quotes from the value
part, and assign `where[col] = val`; otherwise leave `where` alone. -/
def applyRowFilterToWhere (row_filter : Option String)
    (whereMap : List (String × Value)) : List (String × Value) :=
  match row_filter with
  | none => whereMap
  | some f =>
    if f = "" then whereMap
    else
      match pySplitOn f " = " with
      | [p1, p2] =>
        dictSet whereMap (pyStripChar '"' (pyTrim p1))
          (Value.str (pyStripChar squote (pyTrim p2)))
      | _ => whereMap

/-- `TablesTool.update`, restricted to the pure data it feeds
`build_update_query`: the untouched `data` mapping and the row-filter
merged `where` mapping. -/
def update_builder_args (c : PermissionChecker) (table : String)
    (data whereMap : List (String × Value)) :
    List (String × Value) × List (String × Value) :=
  (data, applyRowFilterToWhere (get_row_filter c table) whereMap)

/-- `TablesTool.delete`, restricted to the `where` mapping it feeds
`build_delete_query` after the row-filter merge. -/
def delete_builder_where (c : PermissionChecker) (table : String)
    (whereMap : List (String × Value)) : List (String × Value) :=
  applyRowFilterToWhere (get_row_filter c table) whereMap

/-- Python `s.rsplit(sep, 1)[0]`: everything before the last occurrence
of `sep`, or all of `s` when `sep` does not occur.  `lastOccPrefix`
returns the prefix before the last occurrence, if any. -/
def lastOccPrefix (sep : List Char) : List Char → Option (List Char)
  | [] => none
  | c :: rest =>
    match lastOccPrefix sep rest with
    | some p => some (c :: p)
    | none => if sep.isPrefixOf (c :: rest) then some [] else none

/-- Python `s.rsplit(sep, 1)[0]` lifted to `String`. -/
def pyRsplitHead (s sep : String) : String :=
  ⟨(lastOccPrefix sep.data s.data).getD s.data⟩

/-- The query-text portion of `TablesTool.select` (`tools/tables.py`):
build the SELECT, splice in the row filter (replacing `" WHERE "` when a
caller `where` is given, replacing `" FROM "` otherwise), then rewrite
the LIMIT clause when `apply_row_limit` changes the requested limit.
Stops where the code hands the SQL to the database. -/
def select_query_text (c : PermissionChecker) (table : String)
    (columns : Option (List String)) (whereM : Option (List (String × Value)))
    (order_by : Option String) (limit : Option Int) (offset : Int) :
    Except String (String × List Value) :=
  match build_select_query table columns whereM order_by limit offset with
  | .error e => .error e
  | .ok (q0, params) =>
    let q1 := match get_row_filter c table with
      | some row_filter =>
        if row_filter = "" then q0
        else
          match whereM with
          | some w =>
            if w.isEmpty then
              pyReplace q0 " FROM "
                (" FROM " ++ table ++ " WHERE " ++ row_filter ++ " ")
            else
              pyReplace q0 " WHERE " (" WHERE " ++ row_filter ++ " AND ")
          | none =>
            pyReplace q0 " FROM "
              (" FROM " ++ table ++ " WHERE " ++ row_filter ++ " ")
      | none => q0
    let effective_limit := apply_row_limit c limit
    let q2 :=
      if limit = some effective_limit then q1
      else
        match limit with
        | none => q1 ++ " LIMIT " ++ toString effective_limit
        | some _ => pyRsplitHead q1 " LIMIT " ++ " LIMIT " ++ toString effective_limit
    .ok (q2, params)

/-- Substring test on character lists, Python `needle in hay`. -/
def containsSub (needle : List Char) : List Char → Bool
  | [] => needle.isEmpty
  | c :: rest => needle.isPrefixOf (c :: rest) || containsSub needle rest

/-- Substring test on strings. -/
def containsStr (hay needle : String) : Bool :=
  containsSub needle.data hay.data

/-- The character class `[A-Za-z0-9_-]` named by the specification of the
identifier sanitizer. -/
def idClassChar (c : Char) : Bool :=
  pyIsAlnumChar c || c = '_' || c = '-'

/-- Discriminator: did the raw-query tool answer with the SELECT-only
rejection? -/
def isRawRejection : RawQueryResult → Bool
  | .rawQueryRejected _ => true
  | _ => false

/-- Modelled from the spec: the column set the specification says
`getAllowedColumns` derives from a table definition — exactly the columns
whose visible-to list is absent, contains the wildcard, or contains the
role name.  Stated independently of the code's accumulation loop so the
two can be compared. -/
def visibleColumnsSpec (role_name : String) (td : TableDef) : List String :=
  (td.columns.filter (fun col =>
    match col.visible_to with
    | none => true
    | some vs => vs.contains "*" || vs.contains role_name)).map (fun col => col.name)

/-- A sample permissions configuration, shaped like the one in the
repository's test fixtures: an admin role, a read-only role with a
column restriction, and a writer role with a row filter. -/
def samplePerms : PermissionsConfig :=
  { default_role := "reader"
    roles :=
      [("admin", { description := "Full access", tables := ["*"],
                   operations := ["*"] }),
       ("reader", { description := "Read only", tables := ["users", "products"],
                    operations := ["read"],
                    columns := [("users", ["id", "name"])] }),
       ("writer", { description := "Read and write", tables := ["users", "orders"],
                    operations := ["read", "write"],
                    row_filters := [("orders", "user_id = {user_id}")] })]
    tables :=
      [("users",
        { primary_key := "id"
          columns :=
            [{ name := "id", type := "integer" },
             { name := "email", type := "text", sensitive := true,
               visible_to := some ["admin"] },
             { name := "name", type := "text" }] }),
       ("products",
        { primary_key := "id"
          columns :=
            [{ name := "id", type := "integer" },
             { name := "name", type := "text" }] })] }

/-- Checker for the read-only role under `samplePerms`. -/
def readerChecker : PermissionChecker :=
  mkChecker "reader" none none 1000 samplePerms

/-- Checker for the admin role under `samplePerms`. -/
def adminChecker : PermissionChecker :=
  mkChecker "admin" none none 1000 samplePerms

/-- Checker for the writer role under `samplePerms`, with a bound
user identifier, as in the row-filter substitution test fixture. -/
def writerChecker : PermissionChecker :=
  mkChecker "writer" (some "123") none 1000 samplePerms

/-- Checker for the writer role with no bound user identifier. -/
def writerNoUidChecker : PermissionChecker :=
  mkChecker "writer" none none 1000 samplePerms

/-- A configuration whose row filter for "orders" lives in the table
definition's per-role `row_filter` map (not in the role), exercising the
second applicable-template path; the template uses both placeholders. -/
def tenantPerms : PermissionsConfig :=
  { default_role := "reader"
    roles := [("app2", { tables := ["orders"], operations := ["read", "write"] })]
    tables := [("orders",
      { row_filter := some
          [("app2", "user_id = {user_id} AND tenant_id = {tenant_id}")] })] }

/-- Checker under `tenantPerms` with a bound tenant but no bound user. -/
def tenantChecker : PermissionChecker :=
  mkChecker "app2" none (some "t9") 1000 tenantPerms

/-- A configuration whose role-level row filter for "orders" uses both
placeholders. -/
def bothPerms : PermissionsConfig :=
  { default_role := "reader"
    roles := [("app3",
      { tables := ["orders"], operations := ["read", "write"],
        row_filters :=
          [("orders", "user_id = {user_id} AND tenant_id = {tenant_id}")] })] }

/-- Checker under `bothPerms` with both user and tenant bound. -/
def bothChecker : PermissionChecker :=
  mkChecker "app3" (some "123") (some "t9") 1000 bothPerms

/-- A configuration whose only table definition hides its single column
from the active role: the derived visible-column list is empty. -/
def hiddenColPerms : PermissionsConfig :=
  { default_role := "reader"
    roles := [("reader", { tables := ["users"], operations := ["read"] })]
    tables := [("users",
      { columns := [{ name := "secret", type := "text",
                      visible_to := some ["other"] }] })] }

/-- Checker for the read-only role under `hiddenColPerms`. -/
def hiddenColChecker : PermissionChecker :=
  mkChecker "reader" none none 1000 hiddenColPerms

/-! Helper lemmas shared by several claim theorems. -/

/-- A list is a `isPrefixOf`-prefix of itself followed by anything. -/
theorem isPrefixOf_append_self (l t : List Char) :
    l.isPrefixOf (l ++ t) = true := by
  rw [List.isPrefixOf_iff_prefix]
  exact List.prefix_append l t

/-- `containsSub` finds a pattern sitting between two context lists. -/
theorem containsSub_append (n a b : List Char) :
    containsSub n (a ++ n ++ b) = true := by
  induction a with
  | nil =>
    simp only [List.nil_append]
    cases n with
    | nil => cases b <;> simp [containsSub, List.isPrefixOf]
    | cons c n' =>
      simp only [containsSub, List.cons_append]
      have h := isPrefixOf_append_self (c :: n') b
      simp only [List.cons_append] at h
      simp [h]
  | cons c a' ih =>
    have ih' : containsSub n (a' ++ (n ++ b)) = true := by
      simpa [List.append_assoc] using ih
    simp [List.cons_append, containsSub, ih']

/-- `containsSub` finds a pattern anywhere it demonstrably occurs. -/
theorem containsSub_infix (n hay a b : List Char) (h : hay = a ++ (n ++ b)) :
    containsSub n hay = true := by
  subst h
  have := containsSub_append n a b
  simpa [List.append_assoc] using this

/-! Claim theorems. -/

/-- C2: for the role named "admin", regardless of the content of the
loaded permissions configuration, `is_admin` is true and, for every table
name, `can_read`, `can_write` and `can_execute_raw_query` all return
true. -/
theorem c2_admin_unconditional (perms : PermissionsConfig)
    (uid tid : Option String) (mr : Int) (t : String) :
    is_admin (mkChecker "admin" uid tid mr perms) = true
    ∧ can_read (mkChecker "admin" uid tid mr perms) t = true
    ∧ can_write (mkChecker "admin" uid tid mr perms) t = true
    ∧ can_execute_raw_query (mkChecker "admin" uid tid mr perms) = true := by
  have h : is_admin (mkChecker "admin" uid tid mr perms) = true := by
    simp [is_admin, mkChecker]
  exact ⟨h, by simp [can_read, h], by simp [can_write, h],
    by simp [can_execute_raw_query, h]⟩

/-- C10: for every operation-kind string outside
read/insert/update/delete/query, `validate_operation` is false for every
checker — admin included — and `check_permission` raises the formatted
`PermissionError` on any table. -/
theorem c10_unknown_kind_denied (c : PermissionChecker)
    (operation table_name : String)
    (h : operation ∉ (["read", "insert", "update", "delete", "query"] : List String)) :
    validate_operation c operation table_name = false
    ∧ check_permission c operation table_name =
      .error ("Role '" ++ c.role_name ++ "' is not allowed to perform '"
        ++ operation ++ "' on table '" ++ table_name ++ "'") := by
  simp only [List.mem_cons, List.not_mem_nil, or_false, not_or] at h
  obtain ⟨h1, h2, h3, h4, h5⟩ := h
  have hv : validate_operation c operation table_name = false := by
    simp [validate_operation, h1, h2, h3, h4, h5]
  exact ⟨hv, by simp [check_permission, hv]⟩

/-- C10 witness: the kind "write" is outside the dispatch set, and even
the admin checker is denied. -/
theorem c10_unknown_kind_denied_witness :
    ("write" ∉ (["read", "insert", "update", "delete", "query"] : List String))
    ∧ validate_operation adminChecker "write" "users" = false
    ∧ check_permission adminChecker "write" "users" =
      .error "Role 'admin' is not allowed to perform 'write' on table 'users'" := by
  have h := c10_unknown_kind_denied adminChecker "write" "users" (by decide)
  refine ⟨by decide, h.1, ?_⟩
  rw [h.2]
  decide

/-- C8: `check_permission` fails exactly when `validate_operation` is
false; the error message contains the role name, the operation kind and
the table name; on success it returns without effect. -/
theorem c8_check_permission_contract (c : PermissionChecker)
    (operation table_name : String) :
    ((∃ m, check_permission c operation table_name = .error m) ↔
      validate_operation c operation table_name = false)
    ∧ (validate_operation c operation table_name = true →
      check_permission c operation table_name = .ok ())
    ∧ (∀ m, check_permission c operation table_name = .error m →
      containsStr m c.role_name = true ∧ containsStr m operation = true
        ∧ containsStr m table_name = true) := by
  cases hv : validate_operation c operation table_name with
  | true =>
    refine ⟨?_, fun _ => by simp [check_permission, hv], ?_⟩
    · constructor
      · rintro ⟨m, hm⟩
        simp [check_permission, hv] at hm
      · intro hfalse
        simp at hfalse
    · intro m hm
      simp [check_permission, hv] at hm
  | false =>
    have hcp : check_permission c operation table_name =
        .error ("Role '" ++ c.role_name ++ "' is not allowed to perform '"
          ++ operation ++ "' on table '" ++ table_name ++ "'") := by
      simp [check_permission, hv]
    refine ⟨?_, ?_, ?_⟩
    · exact ⟨fun _ => rfl, fun _ => ⟨_, hcp⟩⟩
    · intro htrue
      exact absurd htrue (by simp [hv])
    · intro m hm
      rw [hcp] at hm
      have hmeq : m = "Role '" ++ c.role_name ++ "' is not allowed to perform '"
          ++ operation ++ "' on table '" ++ table_name ++ "'" := by
        cases hm
        rfl
      subst hmeq
      refine ⟨?_, ?_, ?_⟩
      · simp only [containsStr]
        exact containsSub_infix _ _ ("Role '").data
          (("' is not allowed to perform '" ++ operation ++ "' on table '"
            ++ table_name ++ "'").data)
          (by simp [String.data_append, List.append_assoc])
      · simp only [containsStr]
        exact containsSub_infix _ _
          (("Role '" ++ c.role_name ++ "' is not allowed to perform '").data)
          (("' on table '" ++ table_name ++ "'").data)
          (by simp [String.data_append, List.append_assoc])
      · simp only [containsStr]
        exact containsSub_infix _ _
          (("Role '" ++ c.role_name ++ "' is not allowed to perform '"
            ++ operation ++ "' on table '").data)
          (("'").data)
          (by simp [String.data_append, List.append_assoc])

/-- C8 witness: a read-only role asking to "write" on "products" is
denied with a message naming the role, the operation and the table. -/
theorem c8_check_permission_contract_witness :
    validate_operation readerChecker "write" "products" = false
    ∧ check_permission readerChecker "write" "products" =
      .error "Role 'reader' is not allowed to perform 'write' on table 'products'"
    ∧ containsStr "Role 'reader' is not allowed to perform 'write' on table 'products'"
        "reader" = true
    ∧ containsStr "Role 'reader' is not allowed to perform 'write' on table 'products'"
        "write" = true
    ∧ containsStr "Role 'reader' is not allowed to perform 'write' on table 'products'"
        "products" = true := by
  have h := c8_check_permission_contract readerChecker "write" "products"
  have h3 := h.2.2
    "Role 'reader' is not allowed to perform 'write' on table 'products'"
    (by decide)
  exact ⟨by decide, by decide, h3.1, h3.2.1, h3.2.2⟩

/-- C1 counterexample: "_" is a nonempty string drawn entirely from
`[A-Za-z0-9_-]`, yet `sanitize_identifier` rejects it — stripping the
underscores leaves the empty string, which fails `isalnum`. -/
theorem c1_sanitize_counterexample :
    ("_").data.all idClassChar = true
    ∧ ("_" : String) ≠ ""
    ∧ sanitize_identifier "_" = .error "Invalid identifier: _" := by
  decide

/-- C1 amended: over ASCII strings, `sanitize_identifier` succeeds and
returns the identifier wrapped in double quotes whenever the identifier
is drawn from `[A-Za-z0-9_-]` and contains at least one alphanumeric
character; it fails with the invalid-identifier error whenever the
identifier contains a character outside `[A-Za-z0-9_-]`.  (Strings of
underscores/hyphens only, such as "_", also fail: see the
counterexample.) -/
theorem c1_sanitize_charclass (s : String)
    (hascii : s.data.all (fun c => c.val < 128) = true) :
    (s.data.all idClassChar = true ∧ s.data.any pyIsAlnumChar = true →
      sanitize_identifier s = .ok ("\"" ++ s ++ "\""))
    ∧ (s.data.any (fun c => !idClassChar c) = true →
      sanitize_identifier s = .error ("Invalid identifier: " ++ s)) := by
  have _ := hascii
  constructor
  · rintro ⟨hall, hany⟩
    have hall' := List.all_eq_true.mp hall
    obtain ⟨c, hc, hcal⟩ := List.any_eq_true.mp hany
    have hcal' : pyIsAlnumChar c = true := by simpa using hcal
    have hcu : c ≠ '_' := by
      intro h
      rw [h] at hcal'
      exact absurd hcal' (by decide)
    have hch : c ≠ '-' := by
      intro h
      rw [h] at hcal'
      exact absurd hcal' (by decide)
    have hmem : c ∈ (s.data.filter (fun c => c ≠ '_')).filter (fun c => c ≠ '-') := by
      simp only [List.mem_filter, decide_eq_true_eq]
      exact ⟨⟨hc, hcu⟩, hch⟩
    have hstr : pyIsAlnum
        ((s.data.filter (fun c => c ≠ '_')).filter (fun c => c ≠ '-')) = true := by
      simp only [pyIsAlnum, Bool.and_eq_true, Bool.not_eq_true']
      constructor
      · rw [List.isEmpty_eq_false]
        exact List.ne_nil_of_mem hmem
      · rw [List.all_eq_true]
        intro x hx
        simp only [List.mem_filter, decide_eq_true_eq] at hx
        have hclass : idClassChar x = true := by simpa using hall' x hx.1.1
        simp only [idClassChar, Bool.or_eq_true, decide_eq_true_eq] at hclass
        rcases hclass with (hal | h_) | hh
        · exact hal
        · exact absurd h_ hx.1.2
        · exact absurd hh hx.2
    simp only [sanitize_identifier]
    rw [hstr]
    simp
  · intro hany
    obtain ⟨c, hc, hcbad⟩ := List.any_eq_true.mp hany
    have hcbad' : idClassChar c = false := by simpa using hcbad
    simp only [idClassChar, Bool.or_eq_false_iff, decide_eq_false_iff_not] at hcbad'
    obtain ⟨⟨hnal, hnu⟩, hnh⟩ := hcbad'
    have hmem : c ∈ (s.data.filter (fun c => c ≠ '_')).filter (fun c => c ≠ '-') := by
      simp only [List.mem_filter, decide_eq_true_eq]
      exact ⟨⟨hc, hnu⟩, hnh⟩
    have hstr : pyIsAlnum
        ((s.data.filter (fun c => c ≠ '_')).filter (fun c => c ≠ '-')) = false := by
      simp only [pyIsAlnum]
      cases hAll : ((s.data.filter (fun c => c ≠ '_')).filter
          (fun c => c ≠ '-')).all pyIsAlnumChar with
      | true =>
        have := List.all_eq_true.mp hAll c hmem
        rw [this] at hnal
        exact absurd hnal (by decide)
      | false =>
        simp
    simp only [sanitize_identifier]
    rw [hstr]
    simp

/-- C1 witness: "user-1" is accepted and quoted; "user;1" is rejected. -/
theorem c1_sanitize_charclass_witness :
    sanitize_identifier "user-1" = .ok "\"user-1\""
    ∧ sanitize_identifier "user;1" = .error "Invalid identifier: user;1" := by
  have h1 := (c1_sanitize_charclass "user-1" (by decide)).1 ⟨by decide, by decide⟩
  have h2 := (c1_sanitize_charclass "user;1" (by decide)).2 (by decide)
  exact ⟨h1, h2⟩

/-- C3 counterexample: a non-admin caller submitting "DELETE FROM users"
is stopped by the admin check (`check_permission("query", "")`) and so
receives `PermissionDenied`, not `RawQueryRejected`, contrary to the
claim that the rejection is `RawQueryRejected` regardless of caller
role. -/
theorem c3_raw_query_counterexample :
    isRawRejection (query_tool_execute readerChecker "DELETE FROM users") = false
    ∧ query_tool_execute readerChecker "DELETE FROM users" =
      .permissionDenied "Role 'reader' is not allowed to perform 'query' on table ''" := by
  decide

/-- C3 amended: for every caller and every SQL string whose trimmed,
case-normalized text does not begin with SELECT, the raw-query operation
never reaches execution; an admin caller gets `RawQueryRejected` from the
SELECT-only gate, while a non-admin caller is rejected first by the
admin check with `PermissionDenied`. -/
theorem c3_raw_query_gate (c : PermissionChecker) (sql : String)
    (h : pyStartsWith (pyToUpper (pyTrim sql)) "SELECT" = false) :
    query_tool_execute c sql ≠ .executed
    ∧ (is_admin c = true → query_tool_execute c sql =
      .rawQueryRejected "Only SELECT queries are allowed for security reasons")
    ∧ (is_admin c = false → query_tool_execute c sql =
      .permissionDenied ("Role '" ++ c.role_name
        ++ "' is not allowed to perform 'query' on table ''")) := by
  have hv : validate_operation c "query" "" = is_admin c := by
    simp [validate_operation, can_execute_raw_query]
  cases hA : is_admin c with
  | true =>
    have : query_tool_execute c sql =
        .rawQueryRejected "Only SELECT queries are allowed for security reasons" := by
      simp [query_tool_execute, check_permission, hv, hA, h]
    refine ⟨by simp [this], fun _ => this, fun hfalse => by simp at hfalse⟩
  | false =>
    have : query_tool_execute c sql =
        .permissionDenied ("Role '" ++ c.role_name
          ++ "' is not allowed to perform 'query' on table ''") := by
      simp only [query_tool_execute, check_permission, hv, hA, Bool.false_eq_true,
        if_false]
      congr 1
      apply String.ext
      simp [String.data_append, List.append_assoc]
    refine ⟨by simp [this], fun htrue => by simp at htrue, fun _ => this⟩

/-- C3 witness: the admin caller submitting "DELETE FROM users" hits the
SELECT-only gate. -/
theorem c3_raw_query_gate_witness :
    pyStartsWith (pyToUpper (pyTrim "DELETE FROM users")) "SELECT" = false
    ∧ query_tool_execute adminChecker "DELETE FROM users" =
      .rawQueryRejected "Only SELECT queries are allowed for security reasons" := by
  refine ⟨by decide, ?_⟩
  exact (c3_raw_query_gate adminChecker "DELETE FROM users" (by decide)).2.1 (by decide)

/-- The accumulation loop of `get_allowed_columns` computes exactly the
specification's filter over the table definition's columns. -/
theorem allowedColsLoop_eq_spec (r : String) (td : TableDef) :
    allowedColsLoop r td.columns = visibleColumnsSpec r td := by
  unfold visibleColumnsSpec
  induction td.columns with
  | nil => rfl
  | cons col rest ih =>
    cases hv : col.visible_to with
    | none =>
      simp [allowedColsLoop, List.filter_cons, hv, ih]
    | some vs =>
      cases hstar : vs.contains "*" <;> cases hrole : vs.contains r <;>
        simp_all [allowedColsLoop, List.filter_cons, hv]

/-- C4 counterexample: for a non-admin role with no role-level column
map, a table definition whose single column is visible only to another
role derives the empty column set; the claim says `getAllowedColumns`
returns exactly that (empty) list, but the code collapses it to `None`
(unrestricted). -/
theorem c4_allowed_columns_counterexample :
    visibleColumnsSpec "reader"
      { columns := [{ name := "secret", type := "text",
                      visible_to := some ["other"] }] } = []
    ∧ is_admin hiddenColChecker = false
    ∧ lookupA hiddenColChecker.role.columns "users" = none
    ∧ lookupA hiddenColChecker.permissions.tables "users" =
      some { columns := [{ name := "secret", type := "text",
                           visible_to := some ["other"] }] }
    ∧ get_allowed_columns hiddenColChecker "users" ≠
      some (visibleColumnsSpec "reader"
        { columns := [{ name := "secret", type := "text",
                        visible_to := some ["other"] }] })
    ∧ get_allowed_columns hiddenColChecker "users" = none := by
  decide

/-- C4 amended: `get_allowed_columns` returns `None` for admin; else the
role-level column map entry when present; else, when a table definition
exists, exactly the columns whose visible-to list is absent, contains the
wildcard, or contains the role name — unless that derived set is empty,
in which case it returns `None` (unrestricted); and `None` when no table
definition exists. -/
theorem c4_get_allowed_columns (c : PermissionChecker) (t : String) :
    (is_admin c = true → get_allowed_columns c t = none)
    ∧ (is_admin c = false → ∀ cols, lookupA c.role.columns t = some cols →
      get_allowed_columns c t = some cols)
    ∧ (is_admin c = false → lookupA c.role.columns t = none →
      ∀ td, lookupA c.permissions.tables t = some td →
        get_allowed_columns c t =
          (if visibleColumnsSpec c.role_name td = [] then none
           else some (visibleColumnsSpec c.role_name td)))
    ∧ (is_admin c = false → lookupA c.role.columns t = none →
      lookupA c.permissions.tables t = none →
      get_allowed_columns c t = none) := by
  refine ⟨?_, ?_, ?_, ?_⟩
  · intro h
    simp [get_allowed_columns, h]
  · intro h cols hl
    simp [get_allowed_columns, h, hl]
  · intro h hl td htd
    simp only [get_allowed_columns, h, Bool.false_eq_true, if_false, hl, htd]
    rw [allowedColsLoop_eq_spec]
    cases hE : (visibleColumnsSpec c.role_name td).isEmpty with
    | true =>
      have he : visibleColumnsSpec c.role_name td = [] := by simpa using hE
      simp [he]
    | false =>
      have he : visibleColumnsSpec c.role_name td ≠ [] := by simpa using hE
      simp [hE, he]
  · intro h hl htd
    simp [get_allowed_columns, h, hl, htd]

/-- C4 witness: the four branches at concrete inputs — admin, a
role-level column map, a table-definition derivation, and a table with
no definition. -/
theorem c4_get_allowed_columns_witness :
    get_allowed_columns adminChecker "users" = none
    ∧ get_allowed_columns readerChecker "users" = some ["id", "name"]
    ∧ get_allowed_columns readerChecker "products" = some ["id", "name"]
    ∧ get_allowed_columns readerChecker "orders" = none := by
  have h1 := (c4_get_allowed_columns adminChecker "users").1 (by decide)
  have h2 := (c4_get_allowed_columns readerChecker "users").2.1 (by decide)
    ["id", "name"] (by decide)
  have h3 := (c4_get_allowed_columns readerChecker "products").2.2.1 (by decide)
    (by decide)
    { primary_key := "id"
      columns := [{ name := "id", type := "integer" },
                  { name := "name", type := "text" }] }
    (by decide)
  have h4 := (c4_get_allowed_columns readerChecker "orders").2.2.2 (by decide)
    (by decide) (by decide)
  refine ⟨h1, h2, ?_, h4⟩
  rw [h3]
  decide

/-- C7 counterexample: calling the select builder with the limit `0`
given takes Python's falsy `if limit:` branch, so no OFFSET/LIMIT clause
and no trailing parameters are emitted, contrary to the claim that every
call with a limit given ends in OFFSET-then-LIMIT. -/
theorem c7_offset_limit_counterexample :
    build_select_query "users" none none none (some 0) 0 =
      .ok ("SELECT * FROM \"users\"", [])
    ∧ containsStr "SELECT * FROM \"users\"" " LIMIT " = false
    ∧ containsStr "SELECT * FROM \"users\"" " OFFSET " = false := by
  decide

/-- C7 amended: for every call to the select builder in which a nonzero
limit is given and the build succeeds, the emitted SQL ends with an
OFFSET placeholder followed by a LIMIT placeholder, and the parameter
list ends with the offset value followed by the limit value. -/
theorem c7_offset_limit_order (table : String) (columns : Option (List String))
    (whereM : Option (List (String × Value))) (order_by : Option String)
    (l offset : Int) (q : String) (ps : List Value)
    (hl : l ≠ 0)
    (h : build_select_query table columns whereM order_by (some l) offset =
      .ok (q, ps)) :
    ∃ qpre pspre,
      q = qpre ++ " OFFSET $" ++ toString (ps.length - 1)
        ++ " LIMIT $" ++ toString ps.length
      ∧ ps = pspre ++ [Value.int offset, Value.int l] := by
  unfold build_select_query at h
  cases hb : build_select_query_base table columns whereM order_by with
  | error e =>
    rw [hb] at h
    exact absurd h (by simp)
  | ok qp =>
    obtain ⟨q2, params1⟩ := qp
    simp only [hb] at h
    rw [if_neg hl] at h
    simp only [Except.ok.injEq, Prod.mk.injEq] at h
    obtain ⟨hq, hps⟩ := h
    subst hq
    subst hps
    exact ⟨_, _, rfl, rfl⟩

/-- C7 witness: the locked example — table "users" with limit 10 emits
`OFFSET $1 LIMIT $2` with parameters `[0, 10]`. -/
theorem c7_offset_limit_order_witness :
    (10 : Int) ≠ 0
    ∧ build_select_query "users" none none none (some 10) 0 =
      .ok ("SELECT * FROM \"users\" OFFSET $1 LIMIT $2", [Value.int 0, Value.int 10])
    ∧ ∃ qpre pspre,
      "SELECT * FROM \"users\" OFFSET $1 LIMIT $2" =
        qpre ++ " OFFSET $"
          ++ toString (([Value.int 0, Value.int 10] : List Value).length - 1)
          ++ " LIMIT $" ++ toString ([Value.int 0, Value.int 10] : List Value).length
      ∧ ([Value.int 0, Value.int 10] : List Value) =
        pspre ++ [Value.int 0, Value.int 10] := by
  refine ⟨by decide, by decide, ?_⟩
  exact c7_offset_limit_order "users" none none none 10 0 _ _ (by decide) (by decide)

/-- Unfolding equation for the scanning arm of `replaceAux`. -/
theorem replaceAux_cons_zero (pat repl : List Char) (c : Char) (rest : List Char) :
    replaceAux pat repl (c :: rest) 0 =
      if pat.isPrefixOf (c :: rest) ∧ 0 < pat.length then
        repl ++ replaceAux pat repl rest (pat.length - 1)
      else
        c :: replaceAux pat repl rest 0 := rfl

/-- Skipping exactly the length of a just-matched chunk resumes the scan
right after it. -/
theorem replaceAux_skip (pat repl : List Char) :
    ∀ (l b : List Char),
      replaceAux pat repl (l ++ b) l.length = replaceAux pat repl b 0 := by
  intro l
  induction l with
  | nil => intro b; rfl
  | cons c l' ih => intro b; exact ih b

/-- The scan replaces a pattern occurrence sitting at the end of an
occurrence-free prefix, then continues after it: Python `str.replace`
substitutes each occurrence left to right. -/
theorem replaceAux_first_occ (pat repl : List Char) (hp : pat ≠ []) :
    ∀ (a b : List Char),
      (∀ i, i < a.length →
        pat.isPrefixOf (List.drop i (a ++ pat ++ b)) = false) →
      replaceAux pat repl (a ++ pat ++ b) 0 =
        a ++ repl ++ replaceAux pat repl b 0 := by
  intro a
  induction a with
  | nil =>
    intro b _
    simp only [List.nil_append]
    obtain ⟨c, pt, rfl⟩ : ∃ c pt, pat = c :: pt := by
      cases pat with
      | nil => exact absurd rfl hp
      | cons c pt => exact ⟨c, pt, rfl⟩
    have hpre : (c :: pt).isPrefixOf (c :: (pt ++ b)) = true :=
      isPrefixOf_append_self (c :: pt) b
    rw [show (c :: pt) ++ b = c :: (pt ++ b) from rfl, replaceAux_cons_zero,
      if_pos ⟨hpre, by simp⟩]
    simp only [List.length_cons, Nat.add_sub_cancel]
    rw [replaceAux_skip]
  | cons c a' ih =>
    intro b hocc
    have h0 : pat.isPrefixOf (c :: (a' ++ pat ++ b)) = false := by
      have := hocc 0 (by simp)
      simpa [List.cons_append] using this
    have hneg : ¬(pat.isPrefixOf (c :: (a' ++ pat ++ b)) = true ∧ 0 < pat.length) := by
      intro hcon
      rw [hcon.1] at h0
      exact absurd h0 (by decide)
    rw [show (c :: a') ++ pat ++ b = c :: (a' ++ pat ++ b) from by
        simp [List.cons_append], replaceAux_cons_zero, if_neg hneg]
    have hsh : ∀ i, i < a'.length →
        pat.isPrefixOf (List.drop i (a' ++ pat ++ b)) = false := by
      intro i hi
      have := hocc (i + 1) (by simp; omega)
      simpa [List.cons_append, List.drop_succ_cons] using this
    rw [ih b hsh]
    simp [List.cons_append]

/-- A pattern with no occurrence anywhere in the scanned text is left
untouched by the scan. -/
theorem replaceAux_no_occ (pat repl : List Char) :
    ∀ s : List Char,
      (∀ i, i ≤ s.length → pat.isPrefixOf (List.drop i s) = false) →
      replaceAux pat repl s 0 = s := by
  intro s
  induction s with
  | nil => intro _; rfl
  | cons c rest ih =>
    intro h
    have h0 := h 0 (by simp)
    rw [List.drop_zero] at h0
    rw [replaceAux_cons_zero, if_neg (fun hcon => by
      rw [hcon.1] at h0
      exact absurd h0 (by decide))]
    rw [ih (fun i hi => by
      have := h (i + 1) (Nat.succ_le_succ hi)
      simpa [List.drop_succ_cons] using this)]

/-- For a non-admin session, `get_row_filter` is the substitution applied
to the applicable template, over both template paths (role-level
`row_filters` and the table definition's per-role `row_filter`). -/
theorem get_row_filter_eq_applicable (c : PermissionChecker) (table : String)
    (hA : is_admin c = false) :
    get_row_filter c table =
      (applicable_row_filter_template c table).map
        (substitute_filter_vars c) := by
  simp only [get_row_filter, applicable_row_filter_template, hA,
    Bool.false_eq_true, if_false]
  rcases h1 : lookupA c.role.row_filters table with _ | t1
  · rcases h2 : lookupA c.permissions.tables table with _ | td
    · simp [h1, h2]
    · rcases h3 : td.row_filter with _ | m
      · simp [h1, h2, h3]
      · rcases h4 : lookupA m c.role_name with _ | t
        · simp [h1, h2, h3, h4]
        · simp [h1, h2, h3, h4]
  · simp [h1]

/-- C6: `get_row_filter` substitutes the placeholders of the applicable
filter template (either template path) with the string forms of the
session's bound user_id and tenant_id, and leaves a placeholder literal
when its session value is unset.  Each bound case is stated for a
template decomposed around the first occurrence of the placeholder, the
scan continuing over the tail so later occurrences are substituted the
same way: part one is a bound user with no tenant, part two a bound
tenant with no user (any `{user_id}` text stays literal inside the
decomposition), part three both bound on a template carrying both
placeholders, part four both unset (template returned verbatim). -/
theorem c6_row_filter_substitution :
    (∀ (c : PermissionChecker) (table tmpl : String) (a b : List Char)
      (u : String),
      is_admin c = false →
      applicable_row_filter_template c table = some tmpl →
      c.user_id = some u → c.tenant_id = none →
      tmpl.data = a ++ ("{user_id}").data ++ b →
      (∀ i, i < a.length →
        ("{user_id}").data.isPrefixOf (List.drop i tmpl.data) = false) →
      get_row_filter c table =
        some ⟨a ++ u.data ++ replaceAux ("{user_id}").data u.data b 0⟩)
    ∧ (∀ (c : PermissionChecker) (table tmpl : String) (a b : List Char)
      (t : String),
      is_admin c = false →
      applicable_row_filter_template c table = some tmpl →
      c.user_id = none → c.tenant_id = some t →
      tmpl.data = a ++ ("{tenant_id}").data ++ b →
      (∀ i, i < a.length →
        ("{tenant_id}").data.isPrefixOf (List.drop i tmpl.data) = false) →
      get_row_filter c table =
        some ⟨a ++ t.data ++ replaceAux ("{tenant_id}").data t.data b 0⟩)
    ∧ (∀ (c : PermissionChecker) (table tmpl : String) (a b1 b2 : List Char)
      (u t : String),
      is_admin c = false →
      applicable_row_filter_template c table = some tmpl →
      c.user_id = some u → c.tenant_id = some t →
      tmpl.data = a ++ ("{user_id}").data
        ++ (b1 ++ ("{tenant_id}").data ++ b2) →
      (∀ i, i < a.length →
        ("{user_id}").data.isPrefixOf (List.drop i tmpl.data) = false) →
      (∀ i, i ≤ (b1 ++ ("{tenant_id}").data ++ b2).length →
        ("{user_id}").data.isPrefixOf
          (List.drop i (b1 ++ ("{tenant_id}").data ++ b2)) = false) →
      (∀ i, i < (a ++ u.data ++ b1).length →
        ("{tenant_id}").data.isPrefixOf
          (List.drop i ((a ++ u.data ++ b1) ++ ("{tenant_id}").data ++ b2)) =
          false) →
      get_row_filter c table =
        some ⟨a ++ u.data ++ b1 ++ t.data
          ++ replaceAux ("{tenant_id}").data t.data b2 0⟩)
    ∧ (∀ (c : PermissionChecker) (table tmpl : String),
      is_admin c = false →
      applicable_row_filter_template c table = some tmpl →
      c.user_id = none → c.tenant_id = none →
      get_row_filter c table = some tmpl) := by
  refine ⟨?_, ?_, ?_, ?_⟩
  · intro c table tmpl a b u hA happl hu ht hdecomp hocc
    rw [hdecomp] at hocc
    have hsub : substitute_filter_vars c tmpl =
        ⟨a ++ u.data ++ replaceAux ("{user_id}").data u.data b 0⟩ := by
      simp only [substitute_filter_vars, hu, ht, pyReplace, replaceAllList]
      rw [if_neg (by decide), hdecomp]
      exact congrArg String.mk
        (replaceAux_first_occ ("{user_id}").data u.data (by decide) a b hocc)
    rw [get_row_filter_eq_applicable c table hA, happl, Option.map_some', hsub]
  · intro c table tmpl a b t hA happl hu ht hdecomp hocc
    rw [hdecomp] at hocc
    have hsub : substitute_filter_vars c tmpl =
        ⟨a ++ t.data ++ replaceAux ("{tenant_id}").data t.data b 0⟩ := by
      simp only [substitute_filter_vars, hu, ht, pyReplace, replaceAllList]
      rw [if_neg (by decide), hdecomp]
      exact congrArg String.mk
        (replaceAux_first_occ ("{tenant_id}").data t.data (by decide) a b hocc)
    rw [get_row_filter_eq_applicable c table hA, happl, Option.map_some', hsub]
  · intro c table tmpl a b1 b2 u t hA happl hu ht hdecomp hocc1 hnoU hocc2
    rw [hdecomp] at hocc1
    have hinner : replaceAllList ("{user_id}").data u.data tmpl.data
        = a ++ u.data ++ (b1 ++ ("{tenant_id}").data ++ b2) := by
      simp only [replaceAllList]
      rw [if_neg (by decide), hdecomp]
      rw [replaceAux_first_occ ("{user_id}").data u.data (by decide) a
        (b1 ++ ("{tenant_id}").data ++ b2) hocc1]
      rw [replaceAux_no_occ ("{user_id}").data u.data
        (b1 ++ ("{tenant_id}").data ++ b2) hnoU]
    have houter : replaceAllList ("{tenant_id}").data t.data
        (a ++ u.data ++ (b1 ++ ("{tenant_id}").data ++ b2))
        = a ++ u.data ++ b1 ++ t.data
          ++ replaceAux ("{tenant_id}").data t.data b2 0 := by
      simp only [replaceAllList]
      rw [if_neg (by decide)]
      rw [show a ++ u.data ++ (b1 ++ ("{tenant_id}").data ++ b2)
          = (a ++ u.data ++ b1) ++ ("{tenant_id}").data ++ b2 from by
        simp [List.append_assoc]]
      rw [replaceAux_first_occ ("{tenant_id}").data t.data (by decide)
        (a ++ u.data ++ b1) b2 hocc2]
    have hsub : substitute_filter_vars c tmpl =
        ⟨a ++ u.data ++ b1 ++ t.data
          ++ replaceAux ("{tenant_id}").data t.data b2 0⟩ := by
      simp only [substitute_filter_vars, hu, ht, pyReplace]
      congr 1
      simp only [hinner, houter]
    rw [get_row_filter_eq_applicable c table hA, happl, Option.map_some', hsub]
  · intro c table tmpl hA happl hu ht
    have hsub : substitute_filter_vars c tmpl = tmpl := by
      simp [substitute_filter_vars, hu, ht]
    rw [get_row_filter_eq_applicable c table hA, happl, Option.map_some', hsub]

/-- C6 witness: the spec's example (bound user "123" resolves the
writer's template to "user_id = 123"); a bound tenant "t9" with no user,
through the table-definition template path, resolves only the tenant
placeholder and leaves the user placeholder literal; both bound resolve
both; both unset return the template verbatim. -/
theorem c6_row_filter_substitution_witness :
    get_row_filter writerChecker "orders" = some "user_id = 123"
    ∧ get_row_filter tenantChecker "orders" =
      some "user_id = {user_id} AND tenant_id = t9"
    ∧ get_row_filter bothChecker "orders" =
      some "user_id = 123 AND tenant_id = t9"
    ∧ get_row_filter writerNoUidChecker "orders" =
      some "user_id = {user_id}" := by
  have h1 := c6_row_filter_substitution.1 writerChecker "orders"
    "user_id = {user_id}" ("user_id = ").data [] "123"
    (by decide) (by decide) (by decide) (by decide) (by decide) (by decide)
  have h2 := c6_row_filter_substitution.2.1 tenantChecker "orders"
    "user_id = {user_id} AND tenant_id = {tenant_id}"
    ("user_id = {user_id} AND tenant_id = ").data [] "t9"
    (by decide) (by decide) (by decide) (by decide) (by decide) (by decide)
  have h3 := c6_row_filter_substitution.2.2.1 bothChecker "orders"
    "user_id = {user_id} AND tenant_id = {tenant_id}"
    ("user_id = ").data (" AND tenant_id = ").data [] "123" "t9"
    (by decide) (by decide) (by decide) (by decide) (by decide) (by decide)
    (by decide) (by decide)
  have h4 := c6_row_filter_substitution.2.2.2 writerNoUidChecker "orders"
    "user_id = {user_id}" (by decide) (by decide) (by decide) (by decide)
  refine ⟨?_, ?_, ?_, h4⟩
  · rw [h1]; decide
  · rw [h2]; decide
  · rw [h3]; decide

/-- Unfolding equation for `lookupA` at a cons cell. -/
theorem lookupA_cons {α : Type} (k' : String) (v : α) (rest : List (String × α))
    (k : String) :
    lookupA ((k', v) :: rest) k = if k' = k then some v else lookupA rest k :=
  rfl

/-- Setting an existing key with the map branch of `dictSet` makes that
key look up the new value. -/
theorem lookupA_map_set {α : Type} (k : String) (v : α) :
    ∀ (d : List (String × α)), d.any (fun p => p.1 = k) = true →
      lookupA (d.map (fun p => if p.1 = k then (k, v) else p)) k = some v := by
  intro d
  induction d with
  | nil => intro h; simp at h
  | cons p rest ih =>
    intro h
    obtain ⟨k', w⟩ := p
    simp only [List.map_cons]
    by_cases hk : k' = k
    · rw [if_pos (show (k', w).1 = k from hk), lookupA_cons, if_pos rfl]
    · rw [if_neg (show ¬(k', w).1 = k from hk), lookupA_cons, if_neg hk]
      apply ih
      simp only [List.any_cons, Bool.or_eq_true, decide_eq_true_eq] at h
      rcases h with h | h
      · exact absurd h hk
      · exact h

/-- Appending a fresh key with `dictSet` makes that key look up the new
value. -/
theorem lookupA_append_single {α : Type} (k : String) (v : α) :
    ∀ (d : List (String × α)), d.any (fun p => p.1 = k) = false →
      lookupA (d ++ [(k, v)]) k = some v := by
  intro d
  induction d with
  | nil => intro _; rw [List.nil_append, lookupA_cons, if_pos rfl]
  | cons p rest ih =>
    intro h
    obtain ⟨k', w⟩ := p
    simp only [List.any_cons, Bool.or_eq_false_iff, decide_eq_false_iff_not] at h
    rw [List.cons_append, lookupA_cons, if_neg h.1]
    exact ih h.2

/-- `dictSet` makes its key look up its value, whichever branch runs. -/
theorem lookupA_dictSet_self {α : Type} (d : List (String × α)) (k : String)
    (v : α) : lookupA (dictSet d k v) k = some v := by
  unfold dictSet
  cases hany : d.any (fun p => p.1 = k) with
  | true =>
    rw [if_pos rfl]
    exact lookupA_map_set k v d hany
  | false =>
    rw [if_neg (by decide)]
    exact lookupA_append_single k v d hany

/-- `dictSet` leaves the lookup of every other key unchanged. -/
theorem lookupA_dictSet_ne {α : Type} (k k' : String) (v : α) (hne : k' ≠ k) :
    ∀ (d : List (String × α)), lookupA (dictSet d k v) k' = lookupA d k' := by
  have hmap : ∀ d : List (String × α),
      lookupA (d.map (fun p => if p.1 = k then (k, v) else p)) k' =
        lookupA d k' := by
    intro d
    induction d with
    | nil => rfl
    | cons p rest ih =>
      obtain ⟨k0, w⟩ := p
      simp only [List.map_cons]
      by_cases hk : k0 = k
      · rw [if_pos (show (k0, w).1 = k from hk), lookupA_cons, lookupA_cons,
          if_neg (Ne.symm hne),
          if_neg (show ¬k0 = k' from fun hc => hne (Eq.symm (hk ▸ hc))), ih]
      · rw [if_neg (show ¬(k0, w).1 = k from hk), lookupA_cons, lookupA_cons]
        by_cases hk' : k0 = k'
        · rw [if_pos hk', if_pos hk']
        · rw [if_neg hk', if_neg hk', ih]
  have happ : ∀ d : List (String × α),
      lookupA (d ++ [(k, v)]) k' = lookupA d k' := by
    intro d
    induction d with
    | nil => rw [List.nil_append, lookupA_cons, if_neg (Ne.symm hne)]
    | cons p rest ih =>
      obtain ⟨k0, w⟩ := p
      rw [List.cons_append, lookupA_cons, lookupA_cons, ih]
  intro d
  unfold dictSet
  cases hany : d.any (fun p => p.1 = k) with
  | true =>
    rw [if_pos rfl]
    exact hmap d
  | false =>
    rw [if_neg (by decide)]
    exact happ d

/-- C9: when the applicable row filter splits on " = " into exactly two
parts, both `TablesTool.update` and `TablesTool.delete` merge it into the
caller's `where` mapping: the quote-stripped filter column is bound
(overwriting any caller entry for it) to the quote-stripped filter value
as a string, every other `where` entry looks up unchanged, and the `data`
mapping passes through untouched. -/
theorem c9_row_filter_merge (c : PermissionChecker) (table : String)
    (data whereMap : List (String × Value)) (f p1 p2 : String)
    (hf : get_row_filter c table = some f)
    (hne : f ≠ "")
    (hsplit : pySplitOn f " = " = [p1, p2]) :
    update_builder_args c table data whereMap =
      (data, dictSet whereMap (pyStripChar '"' (pyTrim p1))
        (Value.str (pyStripChar squote (pyTrim p2))))
    ∧ delete_builder_where c table whereMap =
      dictSet whereMap (pyStripChar '"' (pyTrim p1))
        (Value.str (pyStripChar squote (pyTrim p2)))
    ∧ lookupA (dictSet whereMap (pyStripChar '"' (pyTrim p1))
        (Value.str (pyStripChar squote (pyTrim p2))))
        (pyStripChar '"' (pyTrim p1)) =
      some (Value.str (pyStripChar squote (pyTrim p2)))
    ∧ (∀ k, k ≠ pyStripChar '"' (pyTrim p1) →
      lookupA (dictSet whereMap (pyStripChar '"' (pyTrim p1))
        (Value.str (pyStripChar squote (pyTrim p2)))) k = lookupA whereMap k) := by
  have happ : applyRowFilterToWhere (some f) whereMap =
      dictSet whereMap (pyStripChar '"' (pyTrim p1))
        (Value.str (pyStripChar squote (pyTrim p2))) := by
    simp only [applyRowFilterToWhere]
    rw [if_neg hne, hsplit]
  refine ⟨?_, ?_, lookupA_dictSet_self _ _ _,
    fun k hk => lookupA_dictSet_ne _ _ _ hk whereMap⟩
  · simp [update_builder_args, hf, happ]
  · simp [delete_builder_where, hf, happ]

/-- C9 witness: the writer role's resolved filter "user_id = 123" on
"orders" overwrites the caller's stale "user_id" entry, leaves "status"
alone, and leaves the update payload untouched. -/
theorem c9_row_filter_merge_witness :
    update_builder_args writerChecker "orders" [("qty", Value.int 5)]
      [("status", Value.str "open"), ("user_id", Value.str "999")] =
      ([("qty", Value.int 5)],
        [("status", Value.str "open"), ("user_id", Value.str "123")])
    ∧ delete_builder_where writerChecker "orders"
      [("status", Value.str "open"), ("user_id", Value.str "999")] =
      [("status", Value.str "open"), ("user_id", Value.str "123")]
    ∧ lookupA [("status", Value.str "open"), ("user_id", Value.str "123")]
      "user_id" = some (Value.str "123")
    ∧ lookupA [("status", Value.str "open"), ("user_id", Value.str "123")]
      "status" = some (Value.str "open") := by
  have h := c9_row_filter_merge writerChecker "orders" [("qty", Value.int 5)]
    [("status", Value.str "open"), ("user_id", Value.str "999")]
    "user_id = 123" "user_id" "123" (by decide) (by decide) (by decide)
  have e1 : pyStripChar '"' (pyTrim "user_id") = "user_id" := by decide
  have e2 : pyStripChar squote (pyTrim "123") = "123" := by decide
  have e3 : dictSet [("status", Value.str "open"), ("user_id", Value.str "999")]
      "user_id" (Value.str "123") =
      [("status", Value.str "open"), ("user_id", Value.str "123")] := by decide
  refine ⟨?_, ?_, ?_, ?_⟩
  · rw [h.1, e1, e2, e3]
  · rw [h.2.1, e1, e2, e3]
  · have h3 := h.2.2.1
    rw [e1, e2, e3] at h3
    exact h3
  · have h4 := h.2.2.2 "status" (by rw [e1]; decide)
    rw [e1, e2, e3] at h4
    exact h4

/-- C5: evaluation of the select pipeline at a failing input.  With a row
filter and no caller `where`, `TablesTool.select` replaces " FROM " by
" FROM table WHERE filter ", which leaves the original quoted table name
dangling after the filter: the emitted SQL is
`SELECT * FROM orders WHERE user_id = 123 "orders" LIMIT 1000` — the
filter is not the sole WHERE clause of a well-formed query.  With a
caller `where` the filter is AND-combined as described. -/
theorem c5_select_row_filter_splice :
    get_row_filter writerChecker "orders" = some "user_id = 123"
    ∧ select_query_text writerChecker "orders" none none none none 0 =
      .ok ("SELECT * FROM orders WHERE user_id = 123 \"orders\" LIMIT 1000", [])
    ∧ select_query_text writerChecker "orders" none
      (some [("id", Value.int 1)]) none none 0 =
      .ok ("SELECT * FROM \"orders\" WHERE user_id = 123 AND \"id\" = $1 LIMIT 1000",
        [Value.int 1]) := by
  decide
